import Mathlib

/-!
Verification of the core of a quality-value stock screener.

The program's core consists of:
* derived metrics computed by the data fetcher: interest coverage, ROIC,
  free cash flow, and a two-branch intrinsic-value model;
* a scoring engine with six category scorers and a weighted aggregator;
* a filter predicate over a record and a criteria configuration;
* a descending stable sort of the scored results.

All numeric inputs are modelled as rationals (the program uses Python
floats; the algorithms are pure arithmetic, so exact rational arithmetic
is the intended semantics).  Display-only detail strings produced
alongside each score are omitted: no claim mentions them.
-/

namespace StockScreener

/-- The per-symbol fundamental record assembled by the data fetcher
(`get_stock_data`).  Identity strings (symbol, name, sector, industry)
and fields unused by the core logic (beta, 52-week range, volume) are
omitted; every numeric field consumed by the scorers or the filter
predicate is present. -/
structure StockData where
  price : ℚ
  market_cap : ℚ
  pe_ratio : ℚ
  pb_ratio : ℚ
  ps_ratio : ℚ
  peg_ratio : ℚ
  roe : ℚ
  roa : ℚ
  profit_margin : ℚ
  operating_margin : ℚ
  gross_margin : ℚ
  current_ratio : ℚ
  quick_ratio : ℚ
  debt_to_equity : ℚ
  interest_coverage : ℚ
  revenue_growth : ℚ
  earnings_growth : ℚ
  earnings_quarterly_growth : ℚ
  dividend_yield : ℚ
  payout_ratio : ℚ
  dividend_rate : ℚ
  five_year_avg_dividend_yield : ℚ
  insider_ownership : ℚ
  institutional_ownership : ℚ
  esg_score : ℚ
  governance_score : ℚ
  roic : ℚ
  free_cash_flow : ℚ
  intrinsic_value : ℚ

/-- The flat criteria configuration passed to `run_screening` and
`passes_filters`. -/
structure Criteria where
  max_pe : ℚ
  max_pb : ℚ
  min_discount : ℚ
  min_current_ratio : ℚ
  max_debt_equity : ℚ
  min_interest_cov : ℚ
  min_roe : ℚ
  min_roic : ℚ
  min_op_margin : ℚ
  min_earnings_growth : ℚ
  min_revenue_growth : ℚ
  ethical_profile : String
  dividend_req : String
  min_div_yield : ℚ

/-- Embedding of `StockDataFetcher._calculate_interest_coverage`.  The income
statement is modelled by a flag for `income_stmt is None or
income_stmt.empty` plus one optional value per line item looked up
(`EBIT`, `Interest Expense`); `none` means the row is absent.  The
source defaults an absent EBIT row to `0` and an absent interest row to
`1`, then returns `abs(ebit / interest) if interest != 0 else 0`. -/
def calculate_interest_coverage (stmt_empty : Bool)
    (ebit_row interest_row : Option ℚ) : ℚ :=
  if stmt_empty then 0
  else
    let ebit := ebit_row.getD 0
    let interest := interest_row.getD 1
    if interest ≠ 0 then |ebit / interest| else 0

/-- Embedding of `StockDataFetcher._calculate_roic`.  The two statements are modelled
by a single emptiness flag (the source returns the ROE heuristic as soon
as either is missing or empty) plus optional line items with the
source's defaults: `Net Income` → 0, `Total Assets` → 1,
`Current Liabilities` → 0.  With positive invested capital the source
returns `nopat / invested_capital * 100`, otherwise `0`. -/
def calculate_roic (roe : ℚ) (stmts_empty : Bool)
    (net_income_row total_assets_row current_liab_row : Option ℚ) : ℚ :=
  if stmts_empty then roe * (8/10)
  else
    let nopat := net_income_row.getD 0
    let total_assets := total_assets_row.getD 1
    let current_liab := current_liab_row.getD 0
    let invested_capital := total_assets - current_liab
    if invested_capital > 0 then nopat / invested_capital * 100 else 0

/-- Embedding of `StockDataFetcher._calculate_intrinsic_value`, with the record
fields it reads (`price`, `pe_ratio`, `earnings_growth`, `market_cap`)
and the free cash flow obtained from `_get_free_cash_flow` passed
explicitly.  Branch 1 (`fcf <= 0`): earnings-multiple fallback, returned
directly.  Branch 2: 5-year DCF with 10% discount rate, 3% terminal
growth, and the `max(·, price * 0.5)` floor on the returned value. -/
def calculate_intrinsic_value (price pe_ratio earnings_growth market_cap fcf : ℚ) : ℚ :=
  if fcf ≤ 0 then
    let eps := if pe_ratio > 0 then price / pe_ratio else 0
    let growth_rate := min (earnings_growth / 100) (15/100)
    eps * (1 + growth_rate) * 15
  else
    let growth_rate := min (earnings_growth / 100) (15/100)
    let discount_rate : ℚ := 10/100
    let terminal_growth : ℚ := 3/100
    let projection_years : ℕ := 5
    let pv_fcf := (Finset.range projection_years).sum fun y =>
      fcf * (1 + growth_rate) ^ (y + 1) / (1 + discount_rate) ^ (y + 1)
    let terminal_fcf := fcf * (1 + growth_rate) ^ projection_years * (1 + terminal_growth)
    let terminal_value := terminal_fcf / (discount_rate - terminal_growth)
    let pv_terminal := terminal_value / (1 + discount_rate) ^ projection_years
    let enterprise_value := pv_fcf + pv_terminal
    let shares_outstanding := if price > 0 then market_cap / price else 1
    let intrinsic := if shares_outstanding > 0 then enterprise_value / shares_outstanding
                     else price
    max intrinsic (price * (1/2))

/-- Embedding of `passes_filters(data, criteria)`: the conjunction of screening
checks, translated check by check in source order; each `if ...: return
False` becomes one `ite` arm.  The two `elif` dividend branches are
flattened into guarded arms (sound since `"paying" ≠ "growing"`). -/
def passes_filters (d : StockData) (c : Criteria) : Bool :=
  if d.pe_ratio > c.max_pe ∧ d.pe_ratio > 0 then false
  else if d.pb_ratio > c.max_pb ∧ d.pb_ratio > 0 then false
  else if d.price > 0 ∧ d.intrinsic_value > 0 ∧
      (d.intrinsic_value - d.price) / d.intrinsic_value * 100 < c.min_discount then false
  else if d.current_ratio < c.min_current_ratio then false
  else if d.debt_to_equity > c.max_debt_equity then false
  else if d.interest_coverage < c.min_interest_cov then false
  else if d.roe < c.min_roe then false
  else if d.roic < c.min_roic then false
  else if d.operating_margin < c.min_op_margin then false
  else if d.earnings_growth < c.min_earnings_growth then false
  else if d.revenue_growth < c.min_revenue_growth then false
  else if c.dividend_req = "paying" ∧ d.dividend_yield < c.min_div_yield then false
  else if c.dividend_req = "growing" ∧ d.dividend_yield < c.min_div_yield then false
  else if c.dividend_req = "growing" ∧ d.five_year_avg_dividend_yield = 0 then false
  else true

/-! ### Scoring engine (`StockScorer`)

Each category scorer in the source accumulates points through a chain of
`if`/`elif` bucket tests on one metric at a time and finally returns
`min(score, 100)`.  Each bucket chain is extracted here as one function
of the metric it tests, with exactly the source's conditions and point
values; the category scorer is the clamped sum of its bucket functions
applied to the record's fields. -/

/-- P/E buckets of `calculate_valuation_score` (20 points; note the
chain has no `else`, so a non-positive P/E contributes 0). -/
def pe_points (pe : ℚ) : ℚ :=
  if 0 < pe ∧ pe ≤ 15 then 20
  else if 15 < pe ∧ pe ≤ 20 then 15
  else if 20 < pe ∧ pe ≤ 25 then 10
  else if 25 < pe then 5
  else 0

/-- P/B buckets of `calculate_valuation_score` (15 points; the final
`else` adds 4, so a non-positive P/B also contributes 4). -/
def pb_points (pb : ℚ) : ℚ :=
  if 0 < pb ∧ pb ≤ 3/2 then 15
  else if 3/2 < pb ∧ pb ≤ 3 then 12
  else if 3 < pb ∧ pb ≤ 5 then 8
  else 4

/-- P/S buckets of `calculate_valuation_score` (15 points; the final
`else` adds 4). -/
def ps_points (ps : ℚ) : ℚ :=
  if 0 < ps ∧ ps ≤ 1 then 15
  else if 1 < ps ∧ ps ≤ 2 then 12
  else if 2 < ps ∧ ps ≤ 3 then 8
  else 4

/-- Intrinsic-value-versus-price buckets of `calculate_valuation_score`
(30 points), evaluated only when both price and intrinsic value are
positive; otherwise the sub-metric contributes 0. -/
def discount_points (price intrinsic : ℚ) : ℚ :=
  if price > 0 ∧ intrinsic > 0 then
    let discount := (intrinsic - price) / intrinsic
    if discount ≥ 30/100 then 30
    else if discount ≥ 15/100 then 20
    else if discount ≥ 0 then 10
    else 5
  else 0

/-- PEG buckets of `calculate_valuation_score` (20 points; the final
`else` adds 5). -/
def peg_points (peg : ℚ) : ℚ :=
  if 0 < peg ∧ peg ≤ 1 then 20
  else if 1 < peg ∧ peg ≤ 3/2 then 15
  else if 3/2 < peg ∧ peg ≤ 2 then 10
  else 5

/-- Embedding of `StockScorer.calculate_valuation_score` (score component). -/
def calculate_valuation_score (d : StockData) : ℚ :=
  min (pe_points d.pe_ratio + pb_points d.pb_ratio + ps_points d.ps_ratio
    + discount_points d.price d.intrinsic_value + peg_points d.peg_ratio) 100

/-- Current-ratio buckets of `calculate_financial_score` (25 points). -/
def current_ratio_points (x : ℚ) : ℚ :=
  if x ≥ 2 then 25 else if x ≥ 3/2 then 20 else if x ≥ 1 then 15 else 5

/-- Quick-ratio buckets of `calculate_financial_score` (20 points). -/
def quick_ratio_points (x : ℚ) : ℚ :=
  if x ≥ 3/2 then 20 else if x ≥ 1 then 15 else if x ≥ 1/2 then 10 else 5

/-- Debt-to-equity buckets of `calculate_financial_score` (30 points). -/
def debt_equity_points (x : ℚ) : ℚ :=
  if x ≤ 1/2 then 30 else if x ≤ 1 then 25 else if x ≤ 2 then 15 else 5

/-- Interest-coverage buckets of `calculate_financial_score` (25 points). -/
def coverage_points (x : ℚ) : ℚ :=
  if x ≥ 10 then 25 else if x ≥ 5 then 20 else if x ≥ 2 then 10 else 5

/-- Embedding of `StockScorer.calculate_financial_score` (score component). -/
def calculate_financial_score (d : StockData) : ℚ :=
  min (current_ratio_points d.current_ratio + quick_ratio_points d.quick_ratio
    + debt_equity_points d.debt_to_equity + coverage_points d.interest_coverage) 100

/-- ROE buckets of `calculate_profitability_score` (25 points). -/
def roe_points (x : ℚ) : ℚ :=
  if x ≥ 20 then 25 else if x ≥ 15 then 20 else if x ≥ 10 then 15 else 5

/-- ROIC buckets of `calculate_profitability_score` (25 points). -/
def roic_points (x : ℚ) : ℚ :=
  if x ≥ 15 then 25 else if x ≥ 12 then 20 else if x ≥ 8 then 15 else 5

/-- Operating-margin buckets of `calculate_profitability_score` (25 points). -/
def op_margin_points (x : ℚ) : ℚ :=
  if x ≥ 20 then 25 else if x ≥ 15 then 20 else if x ≥ 10 then 15 else 5

/-- Net-margin buckets of `calculate_profitability_score` (25 points). -/
def net_margin_points (x : ℚ) : ℚ :=
  if x ≥ 15 then 25 else if x ≥ 10 then 20 else if x ≥ 5 then 15 else 5

/-- Embedding of `StockScorer.calculate_profitability_score` (score component). -/
def calculate_profitability_score (d : StockData) : ℚ :=
  min (roe_points d.roe + roic_points d.roic + op_margin_points d.operating_margin
    + net_margin_points d.profit_margin) 100

/-- Earnings-growth buckets of `calculate_growth_score` (40 points). -/
def earnings_growth_points (x : ℚ) : ℚ :=
  if x ≥ 15 then 40 else if x ≥ 10 then 30 else if x ≥ 5 then 20
  else if x ≥ 0 then 10 else 5

/-- Revenue-growth buckets of `calculate_growth_score` (40 points). -/
def revenue_growth_points (x : ℚ) : ℚ :=
  if x ≥ 15 then 40 else if x ≥ 10 then 30 else if x ≥ 5 then 20
  else if x ≥ 0 then 10 else 5

/-- Quarterly-growth buckets of `calculate_growth_score` (20 points). -/
def quarterly_growth_points (x : ℚ) : ℚ :=
  if x ≥ 15 then 20 else if x ≥ 5 then 15 else if x ≥ 0 then 10 else 5

/-- Embedding of `StockScorer.calculate_growth_score` (score component). -/
def calculate_growth_score (d : StockData) : ℚ :=
  min (earnings_growth_points d.earnings_growth + revenue_growth_points d.revenue_growth
    + quarterly_growth_points d.earnings_quarterly_growth) 100

/-- Insider-ownership buckets of `calculate_management_score` (40 points). -/
def insider_points (x : ℚ) : ℚ :=
  if x ≥ 10 then 40 else if x ≥ 5 then 30 else if x ≥ 2 then 20 else 10

/-- Institutional-ownership buckets of `calculate_management_score` (30 points). -/
def institutional_points (x : ℚ) : ℚ :=
  if 40 ≤ x ∧ x ≤ 80 then 30 else if 20 ≤ x ∧ x ≤ 90 then 20 else 10

/-- ROE-as-management-efficiency buckets of `calculate_management_score`
(30 points). -/
def efficiency_points (x : ℚ) : ℚ :=
  if x ≥ 20 then 30 else if x ≥ 15 then 20 else 10

/-- Embedding of `StockScorer.calculate_management_score` (score component). -/
def calculate_management_score (d : StockData) : ℚ :=
  min (insider_points d.insider_ownership + institutional_points d.institutional_ownership
    + efficiency_points d.roe) 100

/-- ESG buckets of `calculate_ethics_score` (adds 50/35/20/10). -/
def esg_points (x : ℚ) : ℚ :=
  if x ≥ 70 then 50 else if x ≥ 50 then 35 else if x ≥ 30 then 20 else 10

/-- Governance buckets of `calculate_ethics_score` (adds 30/20/10). -/
def governance_points (x : ℚ) : ℚ :=
  if x ≥ 70 then 30 else if x ≥ 50 then 20 else 10

/-- The `score` accumulator of `calculate_ethics_score` just before the
profile adjustment: base 50 plus ESG and governance bucket points. -/
def ethics_raw_score (d : StockData) : ℚ :=
  50 + esg_points d.esg_score + governance_points d.governance_score

/-- Embedding of `StockScorer.calculate_ethics_score` (score component): scale the
raw score by 0.9 for the conservative profile, 1.1 for the flexible
profile (any other profile string is left unchanged), then clamp at
100. -/
def calculate_ethics_score (d : StockData) (ethical_profile : String) : ℚ :=
  let score := ethics_raw_score d
  let score := if ethical_profile = "conservative" then score * (9/10)
               else if ethical_profile = "flexible" then score * (11/10)
               else score
  min score 100

/-- The six category scores of one record, as assembled into the
`scores` dict in `run_screening`. -/
structure Scores where
  valuation : ℚ
  financial : ℚ
  profitability : ℚ
  growth : ℚ
  management : ℚ
  ethics : ℚ

/-- Dict lookup `scores[key]` for the six category keys used by
`calculate_overall_score` (the source only ever looks up these six). -/
def Scores.get (s : Scores) : String → ℚ
  | "valuation" => s.valuation
  | "financial" => s.financial
  | "profitability" => s.profitability
  | "growth" => s.growth
  | "management" => s.management
  | "ethics" => s.ethics
  | _ => 0

/-- The `weights` dict of `calculate_overall_score`, in insertion
order. -/
def overall_weights : List (String × ℚ) :=
  [("valuation", 25/100), ("financial", 20/100), ("profitability", 20/100),
   ("growth", 15/100), ("management", 10/100), ("ethics", 10/100)]

/-- Python's `round` to an integer: round half to even.  (Modelled from
Python's documented semantics of the builtin; in the exact-rational
embedding ties are genuine halves.) -/
def round_half_even (q : ℚ) : ℤ :=
  if q - ⌊q⌋ < 1/2 then ⌊q⌋
  else if q - ⌊q⌋ > 1/2 then ⌊q⌋ + 1
  else if ⌊q⌋ % 2 = 0 then ⌊q⌋ else ⌊q⌋ + 1

/-- Python's `round(x, 1)`: round to one decimal place, ties to even. -/
def round_to_tenth (q : ℚ) : ℚ :=
  (round_half_even (q * 10) : ℚ) / 10

/-- Embedding of `StockScorer.calculate_overall_score`: the weighted sum
`sum(scores[key] * weights[key] for key in weights)` over the weights
dict, rounded to one decimal place. -/
def calculate_overall_score (s : Scores) : ℚ :=
  round_to_tenth ((overall_weights.map fun kv => s.get kv.1 * kv.2).sum)

/-- The six category scores computed for a record in `run_screening`. -/
def scores_of (d : StockData) (ethical_profile : String) : Scores where
  valuation := calculate_valuation_score d
  financial := calculate_financial_score d
  profitability := calculate_profitability_score d
  growth := calculate_growth_score d
  management := calculate_management_score d
  ethics := calculate_ethics_score d ethical_profile

/-! ### Result ranking (`run_screening`, final sort) -/

/-- A scored result as handed to the display layer: the record's key
plus its overall score (the remaining fields of the result dict play no
role in the sort). -/
structure ScreenResult where
  symbol : String
  overall_score : ℚ

/-- Embedding of the final sort in `run_screening`,
`results.sort(key=lambda x: x['overall_score'], reverse=True)`:
Python's `list.sort` is documented as a stable sort, and `reverse=True`
compares keys in reverse while keeping equal-key elements in input
order; modelled as a stable merge sort under the total preorder
"has at least as large a score". -/
def rank_results (results : List ScreenResult) : List ScreenResult :=
  results.mergeSort fun a b => decide (b.overall_score ≤ a.overall_score)

/-! ### Concrete records used as test inputs -/

/-- A record with every numeric field 0. -/
def zero_data : StockData :=
  ⟨0, 0, 0, 0, 0, 0, 0, 0, 0, 0, 0, 0, 0, 0, 0, 0, 0, 0, 0, 0, 0, 0, 0, 0, 0, 0, 0, 0, 0⟩

/-- A record whose five minimum-threshold metrics (current ratio,
interest coverage, ROE, ROIC, operating margin) are all 0 while every
other check passes: valuation metrics 0 (skipped), price 0 (discount
skipped), debt 0, strong growth. -/
def c2_record : StockData :=
  { zero_data with earnings_growth := 20, revenue_growth := 20 }

/-- The dashboard's default criteria configuration (the sliders'
default values, `dividend_req = "any"`). -/
def c2_criteria : Criteria :=
  { max_pe := 25, max_pb := 3, min_discount := 15, min_current_ratio := 3/2,
    max_debt_equity := 1, min_interest_cov := 5, min_roe := 15, min_roic := 12,
    min_op_margin := 10, min_earnings_growth := 5, min_revenue_growth := 3,
    ethical_profile := "moderate", dividend_req := "any", min_div_yield := 0 }

/-! ### Helper lemmas: bucket ranges -/

lemma pe_points_bounds (x : ℚ) : 0 ≤ pe_points x ∧ pe_points x ≤ 20 := by
  unfold pe_points; split_ifs <;> norm_num

lemma pb_points_bounds (x : ℚ) : 0 ≤ pb_points x ∧ pb_points x ≤ 15 := by
  unfold pb_points; split_ifs <;> norm_num

lemma ps_points_bounds (x : ℚ) : 0 ≤ ps_points x ∧ ps_points x ≤ 15 := by
  unfold ps_points; split_ifs <;> norm_num

lemma discount_points_bounds (p v : ℚ) : 0 ≤ discount_points p v ∧ discount_points p v ≤ 30 := by
  unfold discount_points
  split_ifs with h
  · dsimp only
    split_ifs <;> norm_num
  · norm_num

lemma peg_points_bounds (x : ℚ) : 0 ≤ peg_points x ∧ peg_points x ≤ 20 := by
  unfold peg_points; split_ifs <;> norm_num

lemma current_ratio_points_bounds (x : ℚ) :
    0 ≤ current_ratio_points x ∧ current_ratio_points x ≤ 25 := by
  unfold current_ratio_points; split_ifs <;> norm_num

lemma quick_ratio_points_bounds (x : ℚ) :
    0 ≤ quick_ratio_points x ∧ quick_ratio_points x ≤ 20 := by
  unfold quick_ratio_points; split_ifs <;> norm_num

lemma debt_equity_points_bounds (x : ℚ) :
    0 ≤ debt_equity_points x ∧ debt_equity_points x ≤ 30 := by
  unfold debt_equity_points; split_ifs <;> norm_num

lemma coverage_points_bounds (x : ℚ) : 0 ≤ coverage_points x ∧ coverage_points x ≤ 25 := by
  unfold coverage_points; split_ifs <;> norm_num

lemma roe_points_bounds (x : ℚ) : 0 ≤ roe_points x ∧ roe_points x ≤ 25 := by
  unfold roe_points; split_ifs <;> norm_num

lemma roic_points_bounds (x : ℚ) : 0 ≤ roic_points x ∧ roic_points x ≤ 25 := by
  unfold roic_points; split_ifs <;> norm_num

lemma op_margin_points_bounds (x : ℚ) : 0 ≤ op_margin_points x ∧ op_margin_points x ≤ 25 := by
  unfold op_margin_points; split_ifs <;> norm_num

lemma net_margin_points_bounds (x : ℚ) : 0 ≤ net_margin_points x ∧ net_margin_points x ≤ 25 := by
  unfold net_margin_points; split_ifs <;> norm_num

lemma earnings_growth_points_bounds (x : ℚ) :
    0 ≤ earnings_growth_points x ∧ earnings_growth_points x ≤ 40 := by
  unfold earnings_growth_points; split_ifs <;> norm_num

lemma revenue_growth_points_bounds (x : ℚ) :
    0 ≤ revenue_growth_points x ∧ revenue_growth_points x ≤ 40 := by
  unfold revenue_growth_points; split_ifs <;> norm_num

lemma quarterly_growth_points_bounds (x : ℚ) :
    0 ≤ quarterly_growth_points x ∧ quarterly_growth_points x ≤ 20 := by
  unfold quarterly_growth_points; split_ifs <;> norm_num

lemma insider_points_bounds (x : ℚ) : 0 ≤ insider_points x ∧ insider_points x ≤ 40 := by
  unfold insider_points; split_ifs <;> norm_num

lemma institutional_points_bounds (x : ℚ) :
    0 ≤ institutional_points x ∧ institutional_points x ≤ 30 := by
  unfold institutional_points; split_ifs <;> norm_num

lemma efficiency_points_bounds (x : ℚ) : 0 ≤ efficiency_points x ∧ efficiency_points x ≤ 30 := by
  unfold efficiency_points; split_ifs <;> norm_num

lemma esg_points_bounds (x : ℚ) : 10 ≤ esg_points x ∧ esg_points x ≤ 50 := by
  unfold esg_points; split_ifs <;> norm_num

lemma governance_points_bounds (x : ℚ) : 10 ≤ governance_points x ∧ governance_points x ≤ 30 := by
  unfold governance_points; split_ifs <;> norm_num

lemma ethics_raw_score_bounds (d : StockData) :
    70 ≤ ethics_raw_score d ∧ ethics_raw_score d ≤ 130 := by
  obtain ⟨h1, h2⟩ := esg_points_bounds d.esg_score
  obtain ⟨h3, h4⟩ := governance_points_bounds d.governance_score
  unfold ethics_raw_score
  constructor <;> linarith

/-! ### Helper lemmas: category score ranges -/

lemma valuation_score_bounds (d : StockData) :
    0 ≤ calculate_valuation_score d ∧ calculate_valuation_score d ≤ 100 := by
  obtain ⟨a1, _⟩ := pe_points_bounds d.pe_ratio
  obtain ⟨a2, _⟩ := pb_points_bounds d.pb_ratio
  obtain ⟨a3, _⟩ := ps_points_bounds d.ps_ratio
  obtain ⟨a4, _⟩ := discount_points_bounds d.price d.intrinsic_value
  obtain ⟨a5, _⟩ := peg_points_bounds d.peg_ratio
  unfold calculate_valuation_score
  exact ⟨le_min (by linarith) (by norm_num), min_le_right _ _⟩

lemma financial_score_bounds (d : StockData) :
    0 ≤ calculate_financial_score d ∧ calculate_financial_score d ≤ 100 := by
  obtain ⟨a1, _⟩ := current_ratio_points_bounds d.current_ratio
  obtain ⟨a2, _⟩ := quick_ratio_points_bounds d.quick_ratio
  obtain ⟨a3, _⟩ := debt_equity_points_bounds d.debt_to_equity
  obtain ⟨a4, _⟩ := coverage_points_bounds d.interest_coverage
  unfold calculate_financial_score
  exact ⟨le_min (by linarith) (by norm_num), min_le_right _ _⟩

lemma profitability_score_bounds (d : StockData) :
    0 ≤ calculate_profitability_score d ∧ calculate_profitability_score d ≤ 100 := by
  obtain ⟨a1, _⟩ := roe_points_bounds d.roe
  obtain ⟨a2, _⟩ := roic_points_bounds d.roic
  obtain ⟨a3, _⟩ := op_margin_points_bounds d.operating_margin
  obtain ⟨a4, _⟩ := net_margin_points_bounds d.profit_margin
  unfold calculate_profitability_score
  exact ⟨le_min (by linarith) (by norm_num), min_le_right _ _⟩

lemma growth_score_bounds (d : StockData) :
    0 ≤ calculate_growth_score d ∧ calculate_growth_score d ≤ 100 := by
  obtain ⟨a1, _⟩ := earnings_growth_points_bounds d.earnings_growth
  obtain ⟨a2, _⟩ := revenue_growth_points_bounds d.revenue_growth
  obtain ⟨a3, _⟩ := quarterly_growth_points_bounds d.earnings_quarterly_growth
  unfold calculate_growth_score
  exact ⟨le_min (by linarith) (by norm_num), min_le_right _ _⟩

lemma management_score_bounds (d : StockData) :
    0 ≤ calculate_management_score d ∧ calculate_management_score d ≤ 100 := by
  obtain ⟨a1, _⟩ := insider_points_bounds d.insider_ownership
  obtain ⟨a2, _⟩ := institutional_points_bounds d.institutional_ownership
  obtain ⟨a3, _⟩ := efficiency_points_bounds d.roe
  unfold calculate_management_score
  exact ⟨le_min (by linarith) (by norm_num), min_le_right _ _⟩

lemma ethics_score_ge (d : StockData) (ethical_profile : String) :
    63 ≤ calculate_ethics_score d ethical_profile := by
  obtain ⟨h70, _⟩ := ethics_raw_score_bounds d
  unfold calculate_ethics_score
  split_ifs <;> exact le_min (by linarith) (by norm_num)

lemma ethics_score_bounds (d : StockData) (ethical_profile : String) :
    0 ≤ calculate_ethics_score d ethical_profile ∧
      calculate_ethics_score d ethical_profile ≤ 100 :=
  ⟨le_trans (by norm_num) (ethics_score_ge d ethical_profile), min_le_right _ _⟩

/-! ### Helper lemmas: rounding and the overall score -/

lemma round_half_even_bounds {q : ℚ} (h0 : 0 ≤ q) (h1 : q ≤ 1000) :
    0 ≤ round_half_even q ∧ round_half_even q ≤ 1000 := by
  have hf0 : (0 : ℤ) ≤ ⌊q⌋ := Int.floor_nonneg.mpr h0
  have hfq : (⌊q⌋ : ℚ) ≤ q := Int.floor_le q
  have hup : (⌊q⌋ : ℚ) ≤ 1000 := le_trans hfq h1
  have hup' : ⌊q⌋ ≤ 1000 := by exact_mod_cast hup
  unfold round_half_even
  split_ifs with hA hB hC
  · exact ⟨hf0, hup'⟩
  · have : (⌊q⌋ : ℚ) < 1000 := by linarith
    have h' : ⌊q⌋ < 1000 := by exact_mod_cast this
    constructor <;> omega
  · exact ⟨hf0, hup'⟩
  · have : (⌊q⌋ : ℚ) < 1000 := by linarith
    have h' : ⌊q⌋ < 1000 := by exact_mod_cast this
    constructor <;> omega

lemma round_to_tenth_bounds {q : ℚ} (h0 : 0 ≤ q) (h1 : q ≤ 100) :
    0 ≤ round_to_tenth q ∧ round_to_tenth q ≤ 100 := by
  obtain ⟨r0, r1⟩ := round_half_even_bounds (q := q * 10) (by linarith) (by linarith)
  have c0 : (0 : ℚ) ≤ (round_half_even (q * 10) : ℚ) := by exact_mod_cast r0
  have c1 : ((round_half_even (q * 10) : ℤ) : ℚ) ≤ 1000 := by exact_mod_cast r1
  unfold round_to_tenth
  constructor <;> [positivity; linarith]

lemma calculate_overall_score_eq (s : Scores) :
    calculate_overall_score s =
      round_to_tenth (s.valuation * (25/100) + s.financial * (20/100)
        + s.profitability * (20/100) + s.growth * (15/100)
        + s.management * (10/100) + s.ethics * (10/100)) := by
  simp only [calculate_overall_score, overall_weights, Scores.get, List.map_cons,
    List.map_nil, List.sum_cons, List.sum_nil]
  congr 1
  ring

lemma ite_false_chain {c : Prop} [Decidable c] {x : Bool} (hx : x = false) :
    (if c then false else x) = false := by
  split_ifs with h
  · rfl
  · exact hx

lemma ite_true_false {c : Prop} [Decidable c] (hc : c) (x : Bool) :
    (if c then false else x) = false := by
  rw [if_pos hc]

/-! ### Claim theorems -/

/-- C3: for every fundamental record and every ethical profile, each of
the six category scores (valuation, financial, profitability, growth,
management, ethics) lies in the closed interval [0, 100], and the
weighted overall score of those six also lies in [0, 100]. -/
theorem scores_in_range (d : StockData) (ethical_profile : String) :
    (0 ≤ calculate_valuation_score d ∧ calculate_valuation_score d ≤ 100) ∧
    (0 ≤ calculate_financial_score d ∧ calculate_financial_score d ≤ 100) ∧
    (0 ≤ calculate_profitability_score d ∧ calculate_profitability_score d ≤ 100) ∧
    (0 ≤ calculate_growth_score d ∧ calculate_growth_score d ≤ 100) ∧
    (0 ≤ calculate_management_score d ∧ calculate_management_score d ≤ 100) ∧
    (0 ≤ calculate_ethics_score d ethical_profile ∧
      calculate_ethics_score d ethical_profile ≤ 100) ∧
    (0 ≤ calculate_overall_score (scores_of d ethical_profile) ∧
      calculate_overall_score (scores_of d ethical_profile) ≤ 100) := by
  obtain ⟨v0, v1⟩ := valuation_score_bounds d
  obtain ⟨f0, f1⟩ := financial_score_bounds d
  obtain ⟨p0, p1⟩ := profitability_score_bounds d
  obtain ⟨g0, g1⟩ := growth_score_bounds d
  obtain ⟨m0, m1⟩ := management_score_bounds d
  obtain ⟨e0, e1⟩ := ethics_score_bounds d ethical_profile
  refine ⟨⟨v0, v1⟩, ⟨f0, f1⟩, ⟨p0, p1⟩, ⟨g0, g1⟩, ⟨m0, m1⟩, ⟨e0, e1⟩, ?_⟩
  rw [calculate_overall_score_eq]
  simp only [scores_of]
  exact round_to_tenth_bounds (by linarith) (by linarith)

/-- C7: for any fixed record (hence fixed ESG and governance inputs)
the ethics scores under the three profiles are ordered conservative ≤
moderate ≤ flexible, each is at most 100, and each equals the raw score
scaled by 0.9 (conservative), 1.0 (moderate), 1.1 (flexible) before the
clamp at 100. -/
theorem ethics_profile_monotone (d : StockData) :
    calculate_ethics_score d "conservative" ≤ calculate_ethics_score d "moderate" ∧
    calculate_ethics_score d "moderate" ≤ calculate_ethics_score d "flexible" ∧
    calculate_ethics_score d "conservative" ≤ 100 ∧
    calculate_ethics_score d "moderate" ≤ 100 ∧
    calculate_ethics_score d "flexible" ≤ 100 ∧
    calculate_ethics_score d "conservative" = min (ethics_raw_score d * (9/10)) 100 ∧
    calculate_ethics_score d "moderate" = min (ethics_raw_score d) 100 ∧
    calculate_ethics_score d "flexible" = min (ethics_raw_score d * (11/10)) 100 := by
  obtain ⟨h70, _⟩ := ethics_raw_score_bounds d
  have e1 : calculate_ethics_score d "conservative" = min (ethics_raw_score d * (9/10)) 100 := by
    simp [calculate_ethics_score]
  have e2 : calculate_ethics_score d "moderate" = min (ethics_raw_score d) 100 := by
    simp [calculate_ethics_score]
  have e3 : calculate_ethics_score d "flexible" = min (ethics_raw_score d * (11/10)) 100 := by
    simp [calculate_ethics_score]
  refine ⟨?_, ?_, ?_, ?_, ?_, e1, e2, e3⟩
  · rw [e1, e2]; exact min_le_min (by linarith) le_rfl
  · rw [e2, e3]; exact min_le_min (by linarith) le_rfl
  · rw [e1]; exact min_le_right _ _
  · rw [e2]; exact min_le_right _ _
  · rw [e3]; exact min_le_right _ _

/-- C8: for every assignment of the six category scores, the overall
score equals the sum of each category score multiplied by the fixed
weights 0.25/0.20/0.20/0.15/0.10/0.10, rounded to one decimal place. -/
theorem overall_score_weighted_sum (s : Scores) :
    calculate_overall_score s =
      round_to_tenth (s.valuation * (25/100) + s.financial * (20/100)
        + s.profitability * (20/100) + s.growth * (15/100)
        + s.management * (10/100) + s.ethics * (10/100)) :=
  calculate_overall_score_eq s

/-- C10: for every fundamental record and every ethical profile string,
the ethics score is at least 63 (base 50 + minimum ESG bucket 10 +
minimum governance bucket 10 = 70, scaled by at worst 0.9). -/
theorem ethics_score_lower_bound (d : StockData) (ethical_profile : String) :
    63 ≤ calculate_ethics_score d ethical_profile :=
  ethics_score_ge d ethical_profile

/-- C9: the ranked result list is sorted in descending order of
`overall_score`, and for every score value the sublist of results
carrying that score is exactly the corresponding sublist of the input,
in input order (stability of the sort). -/
theorem results_sorted_stable (rs : List ScreenResult) :
    List.Pairwise (fun a b => b.overall_score ≤ a.overall_score) (rank_results rs) ∧
    ∀ q : ℚ, (rank_results rs).filter (fun r => r.overall_score = q) =
      rs.filter (fun r => r.overall_score = q) := by
  have trans : ∀ a b c : ScreenResult,
      (fun a b : ScreenResult => decide (b.overall_score ≤ a.overall_score)) a b →
      (fun a b : ScreenResult => decide (b.overall_score ≤ a.overall_score)) b c →
      (fun a b : ScreenResult => decide (b.overall_score ≤ a.overall_score)) a c := by
    intro a b c hab hbc
    simp only [decide_eq_true_eq] at *
    exact le_trans hbc hab
  have total : ∀ a b : ScreenResult,
      ((fun a b : ScreenResult => decide (b.overall_score ≤ a.overall_score)) a b ||
       (fun a b : ScreenResult => decide (b.overall_score ≤ a.overall_score)) b a) := by
    intro a b
    simpa using le_total b.overall_score a.overall_score
  constructor
  · have hs := List.sorted_mergeSort trans total rs
    exact hs.imp fun h => of_decide_eq_true h
  · intro q
    have hself : rs.filter (fun r => r.overall_score = q) =
        (rs.filter (fun r => r.overall_score = q)).filter (fun r => r.overall_score = q) := by
      rw [List.filter_filter]
      simp
    have hpair : (rs.filter (fun r => r.overall_score = q)).Pairwise
        (fun a b : ScreenResult => decide (b.overall_score ≤ a.overall_score)) := by
      apply List.pairwise_of_forall_mem_list
      intro a ha b hb
      have ha' : a.overall_score = q := by simpa using (List.mem_filter.mp ha).2
      have hb' : b.overall_score = q := by simpa using (List.mem_filter.mp hb).2
      simp [ha', hb']
    have h1 : List.Sublist (rs.filter fun r => r.overall_score = q) (rank_results rs) :=
      List.sublist_mergeSort trans total hpair (List.filter_sublist rs)
    have h2 := h1.filter fun r => decide (r.overall_score = q)
    rw [← hself] at h2
    have h3 : ((rank_results rs).filter (fun r => r.overall_score = q)).length =
        (rs.filter (fun r => r.overall_score = q)).length :=
      ((List.mergeSort_perm rs _).filter _).length_eq
    exact (h2.eq_of_length h3.symm).symm

/-- C1, counterexample: on the claim's own scenario `fcf=0, price=50,
pe_ratio=0, earnings_growth=10` the valuation model returns 0, not 25:
the earnings-multiple fallback branch has no 50%-of-price floor. -/
theorem intrinsic_value_counterexample :
    calculate_intrinsic_value 50 0 10 0 0 = 0 ∧
    ¬ ((1/2 : ℚ) * 50 ≤ calculate_intrinsic_value 50 0 10 0 0) := by
  norm_num [calculate_intrinsic_value]

/-- C1, amended: the intrinsic value is at least 0.5 times price in the
5-year DCF branch (`fcf > 0`), where the floor is applied; the
earnings-multiple fallback branch (`fcf ≤ 0`) returns its estimate
unfloored, and in particular for `fcf=0, price=50, pe_ratio=0,
earnings_growth=10` it returns 0. -/
theorem intrinsic_value_amended :
    (∀ price pe_ratio earnings_growth market_cap fcf : ℚ, 0 < fcf →
      price * (1/2) ≤ calculate_intrinsic_value price pe_ratio earnings_growth market_cap fcf) ∧
    calculate_intrinsic_value 50 0 10 0 0 = 0 := by
  constructor
  · intro price pe_ratio earnings_growth market_cap fcf hfcf
    unfold calculate_intrinsic_value
    rw [if_neg (not_le.mpr hfcf)]
    exact le_max_right _ _
  · norm_num [calculate_intrinsic_value]

/-- Witness for the amended C1, at price 1, fcf 1. -/
theorem intrinsic_value_amended_witness :
    (0 : ℚ) < 1 ∧ (1 : ℚ) * (1/2) ≤ calculate_intrinsic_value 1 1 1 1 1 :=
  ⟨by norm_num, intrinsic_value_amended.1 1 1 1 1 1 (by norm_num)⟩

/-- C2, counterexample: a record whose current ratio, interest
coverage, ROE, ROIC and operating margin are all 0 is rejected under
the dashboard's default thresholds, even though every other check
passes (raising those five metrics makes the same record pass). -/
theorem filter_skip_counterexample :
    passes_filters c2_record c2_criteria = false ∧
    passes_filters
      { c2_record with
        current_ratio := 2
        interest_coverage := 12
        roe := 20
        roic := 15
        operating_margin := 20 } c2_criteria = true := by
  constructor
  · norm_num [passes_filters, c2_record, c2_criteria, zero_data]
  · norm_num [passes_filters, c2_record, c2_criteria, zero_data]
    decide

/-- C2, amended: only the P/E and P/B checks (and the
discount-to-intrinsic check, which requires positive price and
intrinsic value) are skipped when their metric is non-positive; the
minimum-threshold checks on current ratio, interest coverage, ROE,
ROIC and operating margin are applied unconditionally, so a record
with those metrics at 0 is rejected whenever any of the corresponding
configured minimums is positive. -/
theorem filter_skip_amended :
    (∀ (d : StockData) (c : Criteria) (m₁ m₂ : ℚ), d.pe_ratio ≤ 0 →
      passes_filters d { c with max_pe := m₁ } = passes_filters d { c with max_pe := m₂ }) ∧
    (∀ (d : StockData) (c : Criteria) (m₁ m₂ : ℚ), d.pb_ratio ≤ 0 →
      passes_filters d { c with max_pb := m₁ } = passes_filters d { c with max_pb := m₂ }) ∧
    (∀ (d : StockData) (c : Criteria),
      d.current_ratio ≤ 0 → d.interest_coverage ≤ 0 → d.roe ≤ 0 → d.roic ≤ 0 →
      d.operating_margin ≤ 0 →
      (0 < c.min_current_ratio ∨ 0 < c.min_interest_cov ∨ 0 < c.min_roe ∨
        0 < c.min_roic ∨ 0 < c.min_op_margin) →
      passes_filters d c = false) := by
  refine ⟨?_, ?_, ?_⟩
  · intro d c m₁ m₂ hpe
    have k₁ : ¬ (d.pe_ratio > m₁ ∧ d.pe_ratio > 0) := fun h => absurd h.2 (not_lt.mpr hpe)
    have k₂ : ¬ (d.pe_ratio > m₂ ∧ d.pe_ratio > 0) := fun h => absurd h.2 (not_lt.mpr hpe)
    simp only [passes_filters]
    rw [if_neg k₁, if_neg k₂]
  · intro d c m₁ m₂ hpb
    have k₁ : ¬ (d.pb_ratio > m₁ ∧ d.pb_ratio > 0) := fun h => absurd h.2 (not_lt.mpr hpb)
    have k₂ : ¬ (d.pb_ratio > m₂ ∧ d.pb_ratio > 0) := fun h => absurd h.2 (not_lt.mpr hpb)
    simp only [passes_filters]
    rw [if_neg k₁, if_neg k₂]
  · intro d c h1 h2 h3 h4 h5 h6
    unfold passes_filters
    rcases h6 with h | h | h | h | h
    · exact ite_false_chain (ite_false_chain (ite_false_chain
        (ite_true_false (lt_of_le_of_lt h1 h) _)))
    · exact ite_false_chain (ite_false_chain (ite_false_chain (ite_false_chain
        (ite_false_chain (ite_true_false (lt_of_le_of_lt h2 h) _)))))
    · exact ite_false_chain (ite_false_chain (ite_false_chain (ite_false_chain
        (ite_false_chain (ite_false_chain
        (ite_true_false (lt_of_le_of_lt h3 h) _))))))
    · exact ite_false_chain (ite_false_chain (ite_false_chain (ite_false_chain
        (ite_false_chain (ite_false_chain (ite_false_chain
        (ite_true_false (lt_of_le_of_lt h4 h) _)))))))
    · exact ite_false_chain (ite_false_chain (ite_false_chain (ite_false_chain
        (ite_false_chain (ite_false_chain (ite_false_chain (ite_false_chain
        (ite_true_false (lt_of_le_of_lt h5 h) _))))))))

/-- Witness for the amended C2: max_pe independence at a zero-P/E
record, and rejection of the all-zero-metric record under default
criteria. -/
theorem filter_skip_amended_witness :
    (passes_filters zero_data { c2_criteria with max_pe := 5 } =
      passes_filters zero_data { c2_criteria with max_pe := 50 }) ∧
    passes_filters c2_record c2_criteria = false :=
  ⟨filter_skip_amended.1 zero_data c2_criteria 5 50 (by norm_num [zero_data]),
   filter_skip_amended.2.2 c2_record c2_criteria
    (by norm_num [c2_record, zero_data]) (by norm_num [c2_record, zero_data])
    (by norm_num [c2_record, zero_data]) (by norm_num [c2_record, zero_data])
    (by norm_num [c2_record, zero_data])
    (Or.inl (by norm_num [c2_criteria]))⟩

/-- C4, counterexample: when the EBIT row is present (value 5) but the
interest-expense row is absent, the derived interest coverage is 5,
not 0 — the absent interest row defaults to 1, not to "return 0". -/
theorem interest_coverage_counterexample :
    calculate_interest_coverage false (some 5) none = 5 ∧ (5 : ℚ) ≠ 0 := by
  norm_num [calculate_interest_coverage]

/-- C4, amended: interest coverage equals `abs(EBIT / interest)` when
both rows are present and interest is nonzero; it is 0 when the income
statement is unavailable, when the interest value is 0, or when the
EBIT row is absent (EBIT defaults to 0); but when only the
interest-expense row is absent, interest defaults to 1 and the result
is `abs(EBIT)`. -/
theorem interest_coverage_amended :
    (∀ e i : ℚ, i ≠ 0 → calculate_interest_coverage false (some e) (some i) = |e / i|) ∧
    (∀ ebit_row interest_row : Option ℚ,
      calculate_interest_coverage true ebit_row interest_row = 0) ∧
    (∀ ebit_row : Option ℚ, calculate_interest_coverage false ebit_row (some 0) = 0) ∧
    (∀ interest_row : Option ℚ, calculate_interest_coverage false none interest_row = 0) ∧
    (∀ e : ℚ, calculate_interest_coverage false (some e) none = |e|) := by
  refine ⟨?_, ?_, ?_, ?_, ?_⟩
  · intro e i hi
    simp [calculate_interest_coverage, hi]
  · intro ebit_row interest_row
    simp [calculate_interest_coverage]
  · intro ebit_row
    simp [calculate_interest_coverage]
  · intro interest_row
    rcases interest_row with _ | i
    · simp [calculate_interest_coverage]
    · simp only [calculate_interest_coverage, Bool.false_eq_true, if_false,
        Option.getD_some, Option.getD_none]
      split_ifs <;> simp
  · intro e
    simp [calculate_interest_coverage]

/-- Witness for the amended C4: EBIT 6, interest 2 gives |6/2| = 3. -/
theorem interest_coverage_amended_witness :
    (2 : ℚ) ≠ 0 ∧ calculate_interest_coverage false (some 6) (some 2) = |(6 : ℚ) / 2| :=
  ⟨by norm_num, interest_coverage_amended.1 6 2 (by norm_num)⟩

/-- C5, counterexample: with statements available, net income 5, total
assets 1 and current liabilities 2, invested capital is −1 ≤ 0 and the
function returns 0, not the ROE heuristic 10 * 0.8 = 8. -/
theorem roic_counterexample :
    calculate_roic 10 false (some 5) (some 1) (some 2) = 0 ∧
    (0 : ℚ) ≠ 10 * (8/10) := by
  norm_num [calculate_roic]

/-- C5, amended: ROIC equals `NetIncome / (TotalAssets −
CurrentLiabilities) * 100` when the statements are available and
invested capital is positive; the ROE * 0.8 heuristic is used only
when the statements themselves are unavailable; non-positive invested
capital yields 0, not the ROE heuristic. -/
theorem roic_amended :
    (∀ (roe : ℚ) (ni ta cl : Option ℚ), calculate_roic roe true ni ta cl = roe * (8/10)) ∧
    (∀ roe ni ta cl : ℚ, 0 < ta - cl →
      calculate_roic roe false (some ni) (some ta) (some cl) = ni / (ta - cl) * 100) ∧
    (∀ roe ni ta cl : ℚ, ta - cl ≤ 0 →
      calculate_roic roe false (some ni) (some ta) (some cl) = 0) := by
  refine ⟨?_, ?_, ?_⟩
  · intro roe ni ta cl
    simp [calculate_roic]
  · intro roe ni ta cl h
    simp only [calculate_roic, Bool.false_eq_true, if_false, Option.getD_some]
    rw [if_pos h]
  · intro roe ni ta cl h
    simp only [calculate_roic, Bool.false_eq_true, if_false, Option.getD_some]
    rw [if_neg (not_lt.mpr h)]

/-- Witness for the amended C5: net income 5 over invested capital
100 gives 5% ROIC. -/
theorem roic_amended_witness :
    (0 : ℚ) < 101 - 1 ∧
    calculate_roic 1 false (some 5) (some 101) (some 1) = 5 / (101 - 1) * 100 :=
  ⟨by norm_num, roic_amended.2.1 1 5 101 1 (by norm_num)⟩

/-- C6, counterexample: with P/B = 0, P/S = 0 and PEG = 0 the bucket
chains fall into their final `else` and contribute 4, 4 and 5 points
(only the P/E chain contributes 0 at 0); the all-zero record scores
13, not 0. -/
theorem valuation_zero_metric_counterexample :
    pb_points 0 = 4 ∧ ps_points 0 = 4 ∧ peg_points 0 = 5 ∧
    calculate_valuation_score zero_data = 13 := by
  refine ⟨by norm_num [pb_points], by norm_num [ps_points], by norm_num [peg_points], ?_⟩
  norm_num [calculate_valuation_score, zero_data, pe_points, pb_points, ps_points,
    discount_points, peg_points]

/-- C6, amended: a zero P/E is excluded from the bucket logic and
contributes 0 points (as does any non-positive P/E), but zero P/B and
P/S contribute the lowest bucket's 4 points and zero PEG contributes
the lowest bucket's 5 points. -/
theorem valuation_zero_metric_amended :
    (∀ x : ℚ, x ≤ 0 → pe_points x = 0) ∧
    pb_points 0 = 4 ∧ ps_points 0 = 4 ∧ peg_points 0 = 5 := by
  refine ⟨?_, by norm_num [pb_points], by norm_num [ps_points], by norm_num [peg_points]⟩
  intro x hx
  unfold pe_points
  split_ifs <;> first | rfl | linarith

/-- Witness for the amended C6, at P/E = 0. -/
theorem valuation_zero_metric_amended_witness :
    (0 : ℚ) ≤ 0 ∧ pe_points 0 = 0 :=
  ⟨le_refl 0, valuation_zero_metric_amended.1 0 (le_refl 0)⟩

end StockScreener
